import Mathlib

/-!
Verification of the opencap-core-local calibration / trial-orchestration core.

This file shallowly embeds the parts of the repository that the checked
properties are about:

* `main.py` — the per-trial processing function `main` (coordinate rotation
  policy, the camera-calibration loop, the post-triangulation frame check,
  the inverse-kinematics scaled-model check);
* `main_calcIntrinsics_local.py` — intrinsic calibration from video
  (`calibrateCameraFromVideo`, `computeAverageParameters`);
* `local_opencap_pipeline.py` — the `LocalOpenCapPipeline` orchestrator
  (calibration-selection store: `_apply_calibration_selection`,
  `_ensure_calibration_consistency`,
  `apply_calibration_selection_to_session`, and the `process_trial`
  control flow).

File contents are modelled as byte strings (`List Nat`); the Python code
compares files by md5 content hash, which the embedding models as equality
of contents.  Numeric camera parameters are modelled over `ℚ` (the claims
checked here are about exact structural arithmetic — element-wise means —
not about floating-point rounding).
-/

namespace OpenCapLocal

/-- File contents, as a byte string.  "Byte-identical" means equality. -/
abbrev Content := List Nat

/-- The calibration files that live in one camera directory
(`Videos/<cam>/`):
`InputMedia/calibration/cameraIntrinsicsExtrinsics_soln0.pickle`,
`InputMedia/calibration/cameraIntrinsicsExtrinsics_soln1.pickle`, and the
active `cameraIntrinsicsExtrinsics.pickle`.  `none` means the file does not
exist on disk. -/
structure CamFiles where
  soln0 : Option Content
  soln1 : Option Content
  active : Option Content
deriving Repr, DecidableEq

/-- Contents of the candidate file `cameraIntrinsicsExtrinsics_soln{n}.pickle`
for solution index `n`.  Only indices 0 and 1 are ever written by the
calibration trial, so any other index names a file that does not exist. -/
def solnFile (n : Nat) (f : CamFiles) : Option Content :=
  if n = 0 then f.soln0 else if n = 1 then f.soln1 else none

/-- Association-list lookup, mirroring a Python `dict[key]` /
`key in dict` access pattern (first matching key wins). -/
def alookup {α : Type} (l : List (String × α)) (k : String) : Option α :=
  (l.find? (fun p => p.1 = k)).map (fun p => p.2)

/-- A session's calibration-selection state: the per-camera directories with
their calibration files, plus the persisted `calibration_selection.yaml`
(`camera_solutions` mapping).  `selection = none` models the yaml file not
existing; `_load_calibration_selection` then returns `None`. -/
structure SessionState where
  cams : List (String × CamFiles)
  selection : Option (List (String × Nat))
deriving Repr, DecidableEq

end OpenCapLocal

namespace OpenCapLocal

/-! ### Coordinate-frame rotation policy (`main.py`, rotation-angle block)

`main` reads `sessionMetadata['checkerBoard']['placement']` and builds the
`rotationAngles` dict applied to all reconstructed 3D points.  Axis letters
follow the source: `x` is pitch, `y` is yaw, `z` is roll. -/

/-- The `rotationAngles` dictionary of `main.py`: per axis, an optional angle
in degrees.  A missing axis means no rotation about it. -/
structure RotationAngles where
  x : Option Int
  y : Option Int
  z : Option Int
deriving Repr, DecidableEq

/-- Errors raised by `main` (each Python `raise Exception(...)` site that the
checked claims reach is given a constructor). -/
inductive MainError where
  | unsupportedPlacement (placement : String)
  | insufficientReconstructedFrames (validFrames : Nat)
  | scaledModelNotFound
  | cameraCalibrationFailed (msg : String)
deriving Repr, DecidableEq

/-- The rotation-angle selection of `main.py` (the
`if checkerBoardMount == 'backWall' or checkerBoardMount == 'Perpendicular'`
… `elif` … `else raise` block), as a function of the placement string and of
the result of `isCheckerboardUpsideDown`. -/
def getRotationAngles (placement : String) (upsideDown : Bool) :
    Except MainError RotationAngles :=
  if placement = "backWall" ∨ placement = "Perpendicular" then
    if upsideDown then
      .ok { x := none, y := some (-90), z := none }
    else
      .ok { x := none, y := some 90, z := some 180 }
  else if placement = "ground" ∨ placement = "Lying" then
    .ok { x := some 90, y := some 90, z := none }
  else
    .error (.unsupportedPlacement placement)

/-! ### Intrinsic calibration from video
(`main_calcIntrinsics_local.py`, `calibrateCameraFromVideo`)

The function samples `nImages*2` candidate frames; for each candidate it
either detects the checkerboard (incrementing `valid_images`) or moves on
(read failures and detection failures alike leave the count unchanged), and
it stops early once `valid_images` reaches `nImages`.  A candidate frame is
modelled as a `Bool`: `true` iff `cv2.findChessboardCorners` succeeds on it.
If fewer than 10 valid images were collected the function returns `None`
(the `InsufficientCalibrationImages` failure of the spec's taxonomy) without
ever calling `cv2.calibrateCamera`; otherwise it runs the solver. -/

/-- The frame-collection loop: count of valid detections collected, stopping
once `nImages` have been collected. -/
def collectValidImages (frames : List Bool) (nImages : Nat) : Nat :=
  go frames 0
where
  go : List Bool → Nat → Nat
    | [], v => v
    | d :: rest, v =>
      if nImages ≤ v then v
      else go rest (if d then v + 1 else v)

/-- Output of the intrinsic solve (`cv2.calibrateCamera` plus the
reprojection-error computation); opaque to the claims checked here. -/
structure SolveOutput where
  tag : Nat
deriving Repr, DecidableEq

/-- `calibrateCameraFromVideo`, abstracted over the intrinsic solver
(`solve` stands for the `cv2.calibrateCamera` call on the collected
detections): collect valid detections, hard-stop with `none` when fewer
than 10 were found, and only otherwise run the solver. -/
def calibrateCameraFromVideo (frames : List Bool) (nImages : Nat)
    (solve : Nat → SolveOutput) : Option SolveOutput :=
  let validImages := collectValidImages frames nImages
  if validImages < 10 then none
  else some (solve validImages)

/-! ### Post-triangulation frame check and TRC output (`main.py`)

After `triangulateMultiviewVideo` returns, `main` sets
`valid_frames = keypoints3D.shape[2]` and raises when `valid_frames < 10`;
only past that check does it call `writeTRCfrom3DKeypoints` (and then export
the debug JSON). -/

/-- Side effects of the post-triangulation section of `main`, in order. -/
inductive TriangulationOutput where
  | trcWritten
  | debugJsonWritten
deriving Repr, DecidableEq

/-- The section of `main` between triangulation and augmentation: the
`valid_frames < 10` check followed by the TRC write. -/
def postTriangulation (validFrames : Nat) :
    Except MainError (List TriangulationOutput) :=
  if validFrames < 10 then
    .error (.insufficientReconstructedFrames validFrames)
  else
    .ok [.trcWritten, .debugJsonWritten]

/-- Whether a TRC file gets written by the post-triangulation section. -/
def trcWasWritten (r : Except MainError (List TriangulationOutput)) : Bool :=
  match r with
  | .ok outs => outs.contains .trcWritten
  | .error _ => false

end OpenCapLocal

namespace OpenCapLocal

/-! ### `computeAverageParameters` (`main_calcIntrinsics_local.py`)

A calibration record is the dict built by `calibrateCameraFromVideo`:
`intrinsicMat` (3×3), `distortion` (a vector — 5 coefficients with the
default OpenCV model), `imageSize`, `reprojectionError`
(read back with `.get('reprojectionError', 0)`, hence optional), plus the
extra keys (`valid_images`, `rvecs`, `tvecs`, `rotation`) that only the
single-record path preserves. -/

/-- One camera-parameter record (the Python dict). `extras` stands for the
additional keys (`valid_images`, `rvecs`, `tvecs`, `rotation`) present in a
freshly computed record but absent from an averaged one. -/
structure CamRecord where
  intrinsicMat : Matrix (Fin 3) (Fin 3) ℚ
  distortion : Fin 5 → ℚ
  imageSize : ℚ × ℚ
  reprojectionError : Option ℚ
  extras : List String
deriving DecidableEq

/-- `computeAverageParameters`: identity on a single record; otherwise the
element-wise mean of the intrinsic matrices and distortion vectors, the mean
reprojection error (missing entries read as 0), and the first record's image
size.  The empty list is a runtime error in Python (`np.mean` of nothing),
modelled as `none`. -/
def computeAverageParameters : List CamRecord → Option CamRecord
  | [] => none
  | [p] => some p
  | l@(first :: _ :: _) =>
    some
      { intrinsicMat := ((l.length : ℚ))⁻¹ • (l.map (fun p => p.intrinsicMat)).sum
        distortion := ((l.length : ℚ))⁻¹ • (l.map (fun p => p.distortion)).sum
        imageSize := first.imageSize
        reprojectionError :=
          some (((l.length : ℚ))⁻¹ *
            (l.map (fun p => p.reprojectionError.getD 0)).sum)
        extras := [] }

/-! ### The camera-calibration loop of `main.py`

`main` iterates `for camName in cameraDirectories` sequentially.  For each
camera it either loads the already-existing
`cameraIntrinsicsExtrinsics.pickle`, or computes intrinsics and extrinsics.
Every failure path inside that computation (`raise Exception(exception, …)`
for missing intrinsics, intrinsics-from-video failure, and the
`calcExtrinsicsFromVideo` `except` clause, which re-raises) propagates out
of `main`; there is no per-camera catch, so the loop stops at the first
failing camera. -/

/-- What happens for one camera inside the calibration loop: either its
pickle already exists (it is loaded), or parameters must be computed and the
computation either succeeds or raises. -/
inductive CamCalibInput where
  | existingPickle (params : CamRecord)
  | compute (result : Except String CamRecord)

/-- Whether this camera's calibration would succeed considered on its own. -/
def camCalibOk : CamCalibInput → Bool
  | .existingPickle _ => true
  | .compute (.ok _) => true
  | .compute (.error _) => false

/-- Number of cameras in the trial whose calibration would individually
succeed. -/
def camerasCalibrating (cams : List (String × CamCalibInput)) : Nat :=
  (cams.filter (fun p => camCalibOk p.2)).length

/-- The calibration loop of `main`: process cameras in order, aborting the
whole call at the first camera whose computation raises (the exception
propagates — there is no per-camera handler). -/
def calibrationLoop :
    List (String × CamCalibInput) →
    Except (String × String) (List (String × CamRecord))
  | [] => .ok []
  | (camName, inp) :: rest =>
    match inp with
    | .existingPickle params =>
      (calibrationLoop rest).map (fun tl => (camName, params) :: tl)
    | .compute (.ok params) =>
      (calibrationLoop rest).map (fun tl => (camName, params) :: tl)
    | .compute (.error msg) => .error (camName, msg)

/-! ### The inverse-kinematics stage of `main.py` for dynamic trials

For a dynamic trial (`scaleModel=False`) with the OpenSim pipeline enabled,
`main` looks for `OpenSimData/Model/<model>_scaled.osim`.  If the scaled
model exists it runs the IK tool; otherwise it raises
`ValueError("未找到缩放后的模型，请先运行静态试验进行模型缩放")` — there is
no fallback to an un-scaled/default model.  `LocalOpenCapPipeline`'s
`opencap_main` wrapper catches any exception from `main` and returns
`False`, so `process_trial` reports failure rather than propagating. -/

/-- The dynamic-trial IK stage of `main`: succeeds iff a previously produced
scaled model file exists on disk. -/
def dynamicIKStage (scaledModelExists : Bool) : Except MainError Bool :=
  if scaledModelExists then .ok true else .error .scaledModelNotFound

/-- `process_trial` for a dynamic trial, from the point where the upstream
stages (pose detection, synchronization, triangulation, augmentation) have
succeeded: `_get_model_and_metadata` merely logs a warning when no scaled
model is found, `main` is still called, and `opencap_main` turns any raised
exception into a `False` return. -/
def processTrialDynamicOutcome (scaledModelExists : Bool) : Bool :=
  match dynamicIKStage scaledModelExists with
  | .ok b => b
  | .error _ => false

/-! ### `process_trial` exception handling (`local_opencap_pipeline.py`)

`process_trial` calls `opencap_main(**main_args)` inside a `try`.  The
`opencap_main` lazy-import wrapper itself catches every exception raised
by `main` and returns `False`, so a failure of the processing pipeline
reaches `process_trial` as `success == False`: `process_trial` logs the
failure and returns `False` — `_save_partial_results` is not called and no
manifest is written.  `process_trial`'s own `except Exception` branch
fires only when the post-success bookkeeping (saving static-trial outputs,
the interactive calibration selection and its persistence) raises after
`opencap_main` returned `True`; that branch calls
`_save_partial_results(trial_name, trial_type)` — which collects the
pose-detection pickles (`OutputPkl/<trial>/…keypoints….pkl`) and, for
calibration trials only, the active calibration pickles, and writes the
`partial_results_<trial>_<type>.yaml` manifest only when it found at least
one such artifact — and then `return False`.  No path re-raises. -/

/-- A Python exception value (message). -/
abbrev PyExn := String

/-- Result of one `process_trial` invocation: the value returned to the
caller, whether an exception escaped to the caller, whether the salvage
manifest file was written, and which artifact groups it recorded. -/
structure TrialRunResult where
  returned : Bool
  raisedToCaller : Option PyExn
  manifestWritten : Bool
  manifestEntries : List (String × List String)
deriving Repr, DecidableEq

/-- `_save_partial_results`: the manifest entries that would be recorded for
the given on-disk artifacts and trial type. -/
def savePartialResultsEntries (trialType : String)
    (poseFiles calibFiles : List String) : List (String × List String) :=
  (if poseFiles.isEmpty then [] else [("pose_detection", poseFiles)]) ++
    (if trialType = "calibration" ∧ ¬calibFiles.isEmpty then
      [("calibration", calibFiles)]
    else [])

/-- The `opencap_main` wrapper: run `main` and catch every exception it
raises, turning it into a `False` return. -/
def opencap_main (mainResult : Except PyExn Bool) : Bool :=
  match mainResult with
  | .ok b => b
  | .error _ => false

/-- The `try`/`except` body of `process_trial` around and after the
processing call, as a function of the outcome of the `main` call (`.error`
when `main` raises), the outcome of the post-success bookkeeping, and the
artifacts on disk.  When `opencap_main` reports failure, `process_trial`
returns `False` with no salvage; when it reports success and the
bookkeeping raises, the `except` branch salvages into the manifest
(written only when non-empty) and returns `False`. -/
def processTrialRun (mainResult : Except PyExn Bool)
    (postActions : Except PyExn Unit) (trialType : String)
    (poseFiles calibFiles : List String) : TrialRunResult :=
  if opencap_main mainResult then
    match postActions with
    | .ok _ =>
      { returned := true
        raisedToCaller := none
        manifestWritten := false
        manifestEntries := [] }
    | .error _ =>
      let entries := savePartialResultsEntries trialType poseFiles calibFiles
      { returned := false
        raisedToCaller := none
        manifestWritten := ¬entries.isEmpty
        manifestEntries := entries }
  else
    { returned := false
      raisedToCaller := none
      manifestWritten := false
      manifestEntries := [] }

/-! ### `process_trial` control flow (`local_opencap_pipeline.py`)

The body of `process_trial` before the `opencap_main` call, as an event
trace: ensure `sessionMetadata.yaml` exists, run
`_ensure_calibration_consistency` for every non-calibration trial type,
clean previous outputs, gather the type-specific `main_args` (which for
static/dynamic trials reads calibration data and, for static, the saved
selection), and finally call `main`. -/

/-- Observable steps of `process_trial`, in program order. -/
inductive TrialEvent where
  | ensureSessionMetadata
  | ensureCalibrationConsistencyRun
  | cleanupPreviousOutputs
  | getCalibrationData
  | loadSavedSelection
  | getModelAndMetadata
  | callMain
deriving Repr, DecidableEq

/-- The sequence of steps `process_trial` executes up to and including the
`opencap_main` call, as a function of the trial type. -/
def processTrialEvents (trialType : String) : List TrialEvent :=
  [TrialEvent.ensureSessionMetadata] ++
    (if trialType ≠ "calibration" then
      [TrialEvent.ensureCalibrationConsistencyRun]
    else []) ++
    [TrialEvent.cleanupPreviousOutputs] ++
    (if trialType = "static" then
      [TrialEvent.getCalibrationData, TrialEvent.loadSavedSelection]
    else if trialType = "dynamic" then
      [TrialEvent.getCalibrationData, TrialEvent.getModelAndMetadata]
    else []) ++
    [TrialEvent.callMain]

/-- `a` occurs (at least once) strictly before some occurrence of `b`. -/
def occursBefore (a b : TrialEvent) (l : List TrialEvent) : Prop :=
  ∃ l₁ l₂ l₃, l = l₁ ++ a :: l₂ ++ b :: l₃

/-! ### The calibration-selection store (`local_opencap_pipeline.py`)

`_apply_calibration_selection(alternate_cams)` walks every camera
directory, picks solution 1 for cameras in `alternate_cams` and solution 0
otherwise, copies the chosen candidate pickle onto the active
`cameraIntrinsicsExtrinsics.pickle` when the candidate exists (logging an
error otherwise), records the chosen index for every camera, and persists
the whole record to `calibration_selection.yaml`.

`_ensure_calibration_consistency` reloads that record.  If no record exists
(no yaml, unreadable yaml, or — because `if saved_selection:` is a Python
truthiness test — an empty mapping) it does nothing.  Otherwise, for each
camera directory: if the camera is in the record and both the chosen
candidate and the active file exist, it compares their md5 content hashes
and copies only on a mismatch; if only the candidate exists it copies; if
the candidate is missing it warns; and for a camera absent from the record
it warns and copies the solution-0 candidate unconditionally when present.
The embedding counts the `shutil.copy2` calls the run performs. -/

/-- The per-camera body of `_apply_calibration_selection`: the resulting
camera files and the solution index recorded for this camera (recorded even
when the candidate file is missing and no copy happens). -/
def applySelectionCam (alternateCams : List String) (camName : String)
    (f : CamFiles) : CamFiles × Nat :=
  let solutionNum := if camName ∈ alternateCams then 1 else 0
  match solnFile solutionNum f with
  | some c => ({ f with active := some c }, solutionNum)
  | none => (f, solutionNum)

/-- `_apply_calibration_selection`: apply the choice to every camera and
persist the full per-camera record as the new selection. -/
def applyCalibrationSelection (alternateCams : List String)
    (s : SessionState) : SessionState :=
  { cams :=
      s.cams.map (fun p => (p.1, (applySelectionCam alternateCams p.1 p.2).1))
    selection :=
      some (s.cams.map
        (fun p => (p.1, (applySelectionCam alternateCams p.1 p.2).2))) }

/-- The per-camera body of the `_ensure_calibration_consistency` loop:
the resulting camera files and the number of `shutil.copy2` calls made. -/
def reconcileCam (savedSelection : List (String × Nat)) (camName : String)
    (f : CamFiles) : CamFiles × Nat :=
  match alookup savedSelection camName with
  | some solutionNum =>
    match solnFile solutionNum f, f.active with
    | some src, some tgt =>
      if src ≠ tgt then ({ f with active := some src }, 1) else (f, 0)
    | some src, none => ({ f with active := some src }, 1)
    | none, _ => (f, 0)
  | none =>
    match f.soln0 with
    | some src => ({ f with active := some src }, 1)
    | none => (f, 0)

/-- `_ensure_calibration_consistency`: reload the saved selection; when a
non-empty record exists, reconcile every camera directory against it.
Returns the new state and the total number of file copies performed. -/
def ensureCalibrationConsistency (s : SessionState) : SessionState × Nat :=
  match s.selection with
  | none => (s, 0)
  | some savedSelection =>
    if savedSelection.isEmpty then (s, 0)
    else
      let results :=
        s.cams.map (fun p => (p.1, reconcileCam savedSelection p.1 p.2))
      ({ cams := results.map (fun p => (p.1, p.2.1))
         selection := s.selection },
       (results.map (fun p => p.2.2)).sum)

/-! ### `apply_calibration_selection_to_session`
(`local_opencap_pipeline.py`, static tool)

Given an existing session and a camera→solution mapping, the tool walks the
camera directories.  A camera absent from the mapping is skipped.  A mapped
index outside `{0, 1}` is logged as an error and skipped — no exception, no
file change.  Otherwise, if the candidate pickle is missing the camera is
skipped; if the active file already has the candidate's content hash the
camera counts as successful without copying; else the candidate is copied
over the active file (with a backup that, once the copied size matches, is
deleted again) and the camera counts as successful.  The tool returns
`success_count == len(camera_solution_map)`; an empty mapping returns
`True` early (`if not camera_solution_map`). -/

/-- Per-camera body of `apply_calibration_selection_to_session`: the
resulting camera files and whether this camera incremented
`success_count`. -/
def applyToSessionCam (solutionMap : List (String × Int)) (camName : String)
    (f : CamFiles) : CamFiles × Bool :=
  match alookup solutionMap camName with
  | none => (f, false)
  | some solutionNum =>
    if solutionNum ≠ 0 ∧ solutionNum ≠ 1 then (f, false)
    else
      match solnFile solutionNum.toNat f with
      | none => (f, false)
      | some src =>
        match f.active with
        | some tgt =>
          if src = tgt then (f, true)
          else ({ f with active := some src }, true)
        | none => ({ f with active := some src }, true)

/-- `apply_calibration_selection_to_session` with an explicitly supplied
mapping: the updated camera directories and the returned boolean. -/
def applyCalibrationSelectionToSession (cams : List (String × CamFiles))
    (solutionMap : List (String × Int)) :
    List (String × CamFiles) × Bool :=
  if solutionMap.isEmpty then (cams, true)
  else
    let results :=
      cams.map (fun p => (p.1, applyToSessionCam solutionMap p.1 p.2))
    (results.map (fun p => (p.1, p.2.1)),
     (results.filter (fun p => p.2.2)).length = solutionMap.length)

/-- A constant stand-in for the intrinsic solver, used to instantiate
universally quantified solver arguments at concrete inputs. -/
def constSolve : Nat → SolveOutput := fun n => { tag := n }

/-- A sample camera-parameter record used in concrete instantiations. -/
def sampleRecord : CamRecord :=
  { intrinsicMat := 1
    distortion := fun _ => 0
    imageSize := (1080, 1920)
    reprojectionError := some 1
    extras := ["valid_images", "rvecs", "tvecs", "rotation"] }

end OpenCapLocal

namespace OpenCapLocal

/-! ## Theorems -/

/-- C3: the coordinate-frame rotation applied to reconstructed 3D points is
a fixed function of placement mode and the upside-down flag: for
wall-mounted placement (`backWall`/`Perpendicular`) with upside-down
detected it is exactly yaw(-90°) (`y = -90`); right-side-up it is yaw(+90°)
plus roll(+180°) (`y = 90, z = 180`); for ground-mounted
(`ground`/`Lying`) it is pitch(+90°) plus yaw(+90°) (`x = 90, y = 90`); and
any other placement string raises the unsupported-placement error. -/
theorem rotation_policy (placement : String) (upsideDown : Bool) :
    ((placement = "backWall" ∨ placement = "Perpendicular") →
      (upsideDown = true →
        getRotationAngles placement upsideDown =
          .ok { x := none, y := some (-90), z := none }) ∧
      (upsideDown = false →
        getRotationAngles placement upsideDown =
          .ok { x := none, y := some 90, z := some 180 })) ∧
    ((placement = "ground" ∨ placement = "Lying") →
      getRotationAngles placement upsideDown =
        .ok { x := some 90, y := some 90, z := none }) ∧
    (¬(placement = "backWall" ∨ placement = "Perpendicular") →
      ¬(placement = "ground" ∨ placement = "Lying") →
      getRotationAngles placement upsideDown =
        .error (.unsupportedPlacement placement)) := by
  refine ⟨fun hw => ⟨fun hu => ?_, fun hu => ?_⟩, fun hg => ?_, fun hnw hng => ?_⟩
  · subst hu; rcases hw with h | h <;> subst h <;> rfl
  · subst hu; rcases hw with h | h <;> subst h <;> rfl
  · have hnw : ¬(placement = "backWall" ∨ placement = "Perpendicular") := by
      rcases hg with h | h <;> subst h <;> simp
    unfold getRotationAngles
    rw [if_neg hnw, if_pos hg]
  · unfold getRotationAngles
    rw [if_neg hnw, if_neg hng]

/-- C3 witness: concrete instantiation of the rotation-policy theorem. -/
theorem rotation_policy_witness :
    getRotationAngles "backWall" true =
      .ok { x := none, y := some (-90), z := none } :=
  ((rotation_policy "backWall" true).1 (Or.inl rfl)).1 rfl

/-- C7: when fewer than 10 valid checkerboard detections are collected from
a calibration video, `calibrateCameraFromVideo` fails (returns `None`, the
`InsufficientCalibrationImages` outcome) and the intrinsic solve is never
attempted: the result is `none` for every possible solver. -/
theorem insufficient_calibration_images (frames : List Bool) (nImages : Nat)
    (h : collectValidImages frames nImages < 10) :
    ∀ solve : Nat → SolveOutput,
      calibrateCameraFromVideo frames nImages solve = none := by
  intro solve
  unfold calibrateCameraFromVideo
  simp [h]

/-- C7 witness: a video yielding only 3 valid detections out of the
candidate frames fails, with the solver never consulted. -/
theorem insufficient_calibration_images_witness :
    collectValidImages [true, false, true, false, true] 25 < 10 ∧
      calibrateCameraFromVideo [true, false, true, false, true] 25
        constSolve = none :=
  ⟨by decide,
    insufficient_calibration_images [true, false, true, false, true] 25
      (by decide) constSolve⟩

/-- C8: a triangulated point cloud with fewer than 10 valid frames makes the
trial fail with the insufficient-reconstructed-frames error, and no TRC
output file is written. -/
theorem insufficient_reconstructed_frames (validFrames : Nat)
    (h : validFrames < 10) :
    postTriangulation validFrames =
        .error (.insufficientReconstructedFrames validFrames) ∧
      trcWasWritten (postTriangulation validFrames) = false := by
  unfold postTriangulation trcWasWritten
  simp [h]

/-- C8 witness: a 3-frame point cloud fails and writes no TRC. -/
theorem insufficient_reconstructed_frames_witness :
    postTriangulation 3 = .error (.insufficientReconstructedFrames 3) ∧
      trcWasWritten (postTriangulation 3) = false :=
  insufficient_reconstructed_frames 3 (by decide)

/-- C1: for every non-calibration trial type (in particular static and
dynamic), `process_trial` runs `_ensure_calibration_consistency` to
completion strictly before the `opencap_main` processing call; no
non-calibration trial reaches the processing call without it. -/
theorem reconcile_before_processing (trialType : String)
    (h : trialType ≠ "calibration") :
    occursBefore .ensureCalibrationConsistencyRun .callMain
      (processTrialEvents trialType) := by
  refine ⟨[TrialEvent.ensureSessionMetadata],
    [TrialEvent.cleanupPreviousOutputs] ++
      (if trialType = "static" then
        [TrialEvent.getCalibrationData, TrialEvent.loadSavedSelection]
      else if trialType = "dynamic" then
        [TrialEvent.getCalibrationData, TrialEvent.getModelAndMetadata]
      else []), [], ?_⟩
  unfold processTrialEvents
  rw [if_pos h]
  simp

/-- C1 witness: the static trial's event trace reconciles before calling
`main`. -/
theorem reconcile_before_processing_witness :
    occursBefore .ensureCalibrationConsistencyRun .callMain
      (processTrialEvents "static") :=
  reconcile_before_processing "static" (by decide)

/-- A three-camera calibration trial in which the first camera's computation
raises while the other two cameras would calibrate fine. -/
def threeCamOneFailing : List (String × CamCalibInput) :=
  [("Cam1", .compute (.error "Camera calibration failed.")),
   ("Cam2", .compute (.ok sampleRecord)),
   ("Cam3", .existingPickle sampleRecord)]

/-- C4 counterexample: in a trial where two of the three cameras calibrate
individually (so "at least two cameras calibrate"), a failure during the
first camera's calibration still makes the whole calibration loop of `main`
error out — the session does not proceed with the remaining cameras and
does not succeed, contrary to the claim. -/
theorem single_camera_failure_counterexample :
    2 ≤ camerasCalibrating threeCamOneFailing ∧
      calibrationLoop threeCamOneFailing =
        .error ("Cam1", "Camera calibration failed.") :=
  ⟨by decide, rfl⟩

/-- C4 amended: a failure during a single camera's intrinsic/extrinsic
calibration aborts the whole trial — the exception propagates out of the
per-camera loop of `main` (there is no per-camera handler), so whenever the
cameras before a failing one all calibrate, the loop's result is exactly
that camera's error and the remaining cameras are never processed. -/
theorem single_camera_failure_aborts (pre post : List (String × CamCalibInput))
    (camName msg : String)
    (hpre : ∀ p ∈ pre, camCalibOk p.2 = true) :
    calibrationLoop (pre ++ (camName, .compute (.error msg)) :: post) =
      .error (camName, msg) := by
  induction pre with
  | nil => rfl
  | cons a t ih =>
    have ha : camCalibOk a.2 = true := hpre a (List.mem_cons_self a t)
    have ht : ∀ p ∈ t, camCalibOk p.2 = true :=
      fun p hp => hpre p (List.mem_cons_of_mem a hp)
    obtain ⟨nm, inp⟩ := a
    cases inp with
    | existingPickle params =>
      simp only [List.cons_append, calibrationLoop, List.append_eq, ih ht,
        Except.map]
    | compute result =>
      cases result with
      | ok params =>
        simp only [List.cons_append, calibrationLoop, List.append_eq, ih ht,
          Except.map]
      | error m => simp [camCalibOk] at ha

/-- C4 amended witness: concrete instance — one healthy camera before the
failing one, one after; the loop aborts with the failing camera's error. -/
theorem single_camera_failure_aborts_witness :
    calibrationLoop
        [("Cam1", .existingPickle sampleRecord),
         ("Cam2", .compute (.error "no board detected")),
         ("Cam3", .compute (.ok sampleRecord))] =
      .error ("Cam2", "no board detected") :=
  single_camera_failure_aborts [("Cam1", .existingPickle sampleRecord)]
    [("Cam3", .compute (.ok sampleRecord))] "Cam2" "no board detected"
    (by intro p hp; simp at hp; subst hp; rfl)

/-- C5 counterexample: a dynamic trial run without any scaled model on disk
(no prior successful static trial and no previously produced model) does
not proceed to completion: the IK stage of `main` raises the
scaled-model-not-found error and `process_trial` reports failure, contrary
to the claim that the trial completes on a fallback model. -/
theorem dynamic_without_static_counterexample :
    dynamicIKStage false = .error .scaledModelNotFound ∧
      processTrialDynamicOutcome false = false :=
  ⟨rfl, rfl⟩

/-- C5 amended: a dynamic trial run without a prior successful static trial
is not blocked up front — `process_trial` logs a warning and still reaches
the `opencap_main` call — but it completes only when a previously produced
scaled model exists on disk; otherwise the OpenSim IK stage raises (there
is no un-scaled/default-model fallback) and the trial reports failure. -/
theorem dynamic_without_static_behaviour (scaledModelExists : Bool) :
    TrialEvent.callMain ∈ processTrialEvents "dynamic" ∧
      processTrialDynamicOutcome scaledModelExists = scaledModelExists ∧
      dynamicIKStage false = .error .scaledModelNotFound := by
  refine ⟨by decide, ?_, rfl⟩
  cases scaledModelExists <;> rfl

/-- C5 amended witness: with a scaled model present from an earlier run the
dynamic trial completes; the event trace reaches the processing call either
way. -/
theorem dynamic_without_static_behaviour_witness :
    TrialEvent.callMain ∈ processTrialEvents "dynamic" ∧
      processTrialDynamicOutcome true = true ∧
      dynamicIKStage false = .error .scaledModelNotFound :=
  dynamic_without_static_behaviour true

/-- C6 counterexample: an exception raised during trial execution (a
triangulation failure inside `main`), with a pose-detection pickle already
on disk, is caught by the `opencap_main` wrapper: `process_trial` takes its
failure branch and returns `False`, writes no salvage manifest, and
re-raises nothing — contrary to the claim that the artifacts are salvaged
into a manifest and the exception then re-raised to the caller. -/
theorem exception_swallowed_counterexample :
    (processTrialRun (.error "Triangulation failed.") (.ok ()) "dynamic"
        ["Cam1_keypoints.pkl"] []).manifestWritten = false ∧
      (processTrialRun (.error "Triangulation failed.") (.ok ()) "dynamic"
        ["Cam1_keypoints.pkl"] []).raisedToCaller = none ∧
      (processTrialRun (.error "Triangulation failed.") (.ok ()) "dynamic"
        ["Cam1_keypoints.pkl"] []).returned = false :=
  ⟨rfl, rfl, rfl⟩

/-- C6 amended: an exception raised during trial execution (inside `main`)
is caught by the `opencap_main` wrapper, which returns `False`;
`process_trial` then takes its failure branch and returns `False` — no
salvage manifest is written and nothing is re-raised.  The
`_save_partial_results` salvage manifest (recording the pose-detection
output present on disk) is written only when the post-success bookkeeping
raises after `main` succeeded, and that path also returns `False` to the
caller rather than re-raising. -/
theorem exception_handling_behaviour (mainResult : Except PyExn Bool)
    (postActions : Except PyExn Unit) (trialType : String)
    (poseFiles calibFiles : List String) :
    (processTrialRun mainResult postActions trialType poseFiles
        calibFiles).raisedToCaller = none ∧
    (∀ e, mainResult = .error e →
      processTrialRun mainResult postActions trialType poseFiles calibFiles =
        { returned := false, raisedToCaller := none,
          manifestWritten := false, manifestEntries := [] }) ∧
    (∀ e, mainResult = .ok true → postActions = .error e →
      poseFiles.isEmpty = false →
      (processTrialRun mainResult postActions trialType poseFiles
          calibFiles).returned = false ∧
      (processTrialRun mainResult postActions trialType poseFiles
          calibFiles).manifestWritten = true ∧
      ("pose_detection", poseFiles) ∈
        (processTrialRun mainResult postActions trialType poseFiles
          calibFiles).manifestEntries) := by
  refine ⟨?_, ?_, ?_⟩
  · unfold processTrialRun
    split
    · cases postActions <;> rfl
    · rfl
  · intro e he
    subst he
    rfl
  · intro e hm hp hpose
    subst hm
    subst hp
    refine ⟨rfl, ?_, ?_⟩ <;>
      simp [processTrialRun, opencap_main, savePartialResultsEntries, hpose]

/-- C6 amended witness: `main` succeeded, the bookkeeping raised, one
keypoints pickle on disk: `process_trial` salvages it into the manifest
and returns `False`. -/
theorem exception_handling_behaviour_witness :
    (processTrialRun (.ok true) (.error "boom") "static" ["kp.pkl"]
        []).returned = false ∧
      (processTrialRun (.ok true) (.error "boom") "static" ["kp.pkl"]
        []).manifestWritten = true ∧
      ("pose_detection", ["kp.pkl"]) ∈
        (processTrialRun (.ok true) (.error "boom") "static" ["kp.pkl"]
          []).manifestEntries :=
  (exception_handling_behaviour (.ok true) (.error "boom") "static"
      ["kp.pkl"] []).2.2 "boom" rfl rfl rfl

/-- Entry-wise value of the sum of a list of 3×3 rational matrices. -/
theorem list_sum_matrix_apply (l : List (Matrix (Fin 3) (Fin 3) ℚ))
    (i j : Fin 3) : l.sum i j = (l.map (fun M => M i j)).sum := by
  induction l with
  | nil => rfl
  | cons M t ih => simp [List.sum_cons, Matrix.add_apply, ih]

/-- Component-wise value of the sum of a list of distortion vectors. -/
theorem list_sum_distortion_apply (l : List (Fin 5 → ℚ)) (k : Fin 5) :
    l.sum k = (l.map (fun d => d k)).sum := by
  induction l with
  | nil => rfl
  | cons d t ih => simp [List.sum_cons, Pi.add_apply, ih]

/-- C9: `computeAverageParameters` returns the single record itself,
unchanged, for a one-element list; for two or more records it returns the
element-wise arithmetic mean of the intrinsic matrices and of the
distortion vectors, the mean reprojection error (missing entries read as
0), and the image size of the first record — with no hypothesis that the
other records' image sizes agree, because the code performs no such
check. -/
theorem compute_average_parameters_spec :
    (∀ p : CamRecord, computeAverageParameters [p] = some p) ∧
    (∀ (first second : CamRecord) (rest : List CamRecord),
      ∃ r, computeAverageParameters (first :: second :: rest) = some r ∧
        (∀ i j : Fin 3, r.intrinsicMat i j =
          ((first :: second :: rest).map (fun p => p.intrinsicMat i j)).sum /
            ((first :: second :: rest).length : ℚ)) ∧
        (∀ k : Fin 5, r.distortion k =
          ((first :: second :: rest).map (fun p => p.distortion k)).sum /
            ((first :: second :: rest).length : ℚ)) ∧
        r.reprojectionError = some
          (((first :: second :: rest).map
            (fun p => p.reprojectionError.getD 0)).sum /
            ((first :: second :: rest).length : ℚ)) ∧
        r.imageSize = first.imageSize) := by
  constructor
  · intro p; rfl
  · intro first second rest
    refine ⟨_, rfl, ?_, ?_, ?_, rfl⟩
    · intro i j
      show ((((first :: second :: rest).length : ℚ))⁻¹ •
          ((first :: second :: rest).map (fun p => p.intrinsicMat)).sum) i j = _
      rw [Matrix.smul_apply, list_sum_matrix_apply, List.map_map,
        smul_eq_mul, inv_mul_eq_div]
      rfl
    · intro k
      show ((((first :: second :: rest).length : ℚ))⁻¹ •
          ((first :: second :: rest).map (fun p => p.distortion)).sum) k = _
      rw [Pi.smul_apply, list_sum_distortion_apply, List.map_map,
        smul_eq_mul, inv_mul_eq_div]
      rfl
    · show some _ = some _
      rw [inv_mul_eq_div]

/-- C9 witness: the single-record branch returns the record itself. -/
theorem compute_average_parameters_spec_witness :
    computeAverageParameters [sampleRecord] = some sampleRecord :=
  compute_average_parameters_spec.1 sampleRecord

/-- In a list with pairwise-distinct keys, `find?` locates exactly the
member with the given key. -/
theorem find?_key_eq_of_mem_nodup {α : Type} {l : List (String × α)}
    {k : String} {v : α} (hmem : (k, v) ∈ l)
    (hnd : (l.map Prod.fst).Nodup) :
    l.find? (fun p => p.1 = k) = some (k, v) := by
  induction l with
  | nil => cases hmem
  | cons a t ih =>
    rw [List.map_cons, List.nodup_cons] at hnd
    rcases List.mem_cons.mp hmem with h | h
    · subst h
      exact List.find?_cons_of_pos _ (by simp)
    · have hk : ¬a.1 = k := by
        intro he
        exact hnd.1 (he ▸ List.mem_map_of_mem Prod.fst h)
      rw [List.find?_cons_of_neg _ (by simp [hk])]
      exact ih h hnd.2

/-- Association-list lookup of a member, under distinct keys. -/
theorem alookup_eq_of_mem_nodup {α : Type} {l : List (String × α)}
    {k : String} {v : α} (hmem : (k, v) ∈ l)
    (hnd : (l.map Prod.fst).Nodup) : alookup l k = some v := by
  unfold alookup
  rw [find?_key_eq_of_mem_nodup hmem hnd]
  rfl

/-- Lookup in a key-preserving map of an association list. -/
theorem alookup_map {α β : Type} (l : List (String × α))
    (g : String × α → β) (k : String) :
    alookup (l.map (fun p => (p.1, g p))) k =
      (l.find? (fun p => p.1 = k)).map (fun p => g p) := by
  induction l with
  | nil => rfl
  | cons a t ih =>
    rw [List.map_cons]
    by_cases h : a.1 = k
    · unfold alookup
      rw [List.find?_cons_of_pos _ (by simp [h]),
        List.find?_cons_of_pos _ (by simp [h])]
      rfl
    · unfold alookup
      rw [List.find?_cons_of_neg _ (by simp [h]),
        List.find?_cons_of_neg _ (by simp [h])]
      exact ih

/-- Lookup of a member through a key-preserving map, under distinct keys. -/
theorem alookup_map_of_mem_nodup {α β : Type} {l : List (String × α)}
    {k : String} {v : α} (g : String × α → β) (hmem : (k, v) ∈ l)
    (hnd : (l.map Prod.fst).Nodup) :
    alookup (l.map (fun p => (p.1, g p))) k = some (g (k, v)) := by
  rw [alookup_map, find?_key_eq_of_mem_nodup hmem hnd]
  rfl

/-- A key-preserving map preserves the key list. -/
theorem keys_map_snd {α β : Type} (l : List (String × α))
    (g : String × α → β) :
    (l.map (fun p => (p.1, g p))).map Prod.fst = l.map Prod.fst := by
  simp [List.map_map, Function.comp]

/-- A key in the key list has a lookup value. -/
theorem alookup_isSome_of_mem_keys {α : Type} {l : List (String × α)}
    {k : String} (h : k ∈ l.map Prod.fst) : ∃ v, alookup l k = some v := by
  induction l with
  | nil => simp at h
  | cons a t ih =>
    by_cases hk : a.1 = k
    · exact ⟨a.2, by
        unfold alookup
        rw [List.find?_cons_of_pos _ (by simp [hk])]
        rfl⟩
    · have hm : k ∈ t.map Prod.fst := by
        rw [List.map_cons, List.mem_cons] at h
        rcases h with h | h
        · exact absurd h.symm hk
        · exact h
      obtain ⟨v, hv⟩ := ih hm
      refine ⟨v, ?_⟩
      unfold alookup at hv ⊢
      rw [List.find?_cons_of_neg _ (by simp [hk])]
      exact hv

/-- A successful lookup means the key is in the key list. -/
theorem mem_keys_of_alookup_eq_some {α : Type} {l : List (String × α)}
    {k : String} {v : α} (h : alookup l k = some v) :
    k ∈ l.map Prod.fst := by
  unfold alookup at h
  cases hf : l.find? (fun p => p.1 = k) with
  | none => rw [hf] at h; cases h
  | some p =>
    have hpk : p.1 = k := by simpa using List.find?_some hf
    have hmem := List.mem_of_find?_eq_some hf
    exact hpk ▸ List.mem_map_of_mem Prod.fst hmem

/-- `solnFile` only reads the candidate slots, never the active one. -/
theorem solnFile_update_active (n : Nat) (f : CamFiles) (c : Option Content) :
    solnFile n { f with active := c } = solnFile n f := rfl

/-- Unfolding of `ensureCalibrationConsistency` when a non-empty saved
selection exists. -/
theorem ensureCalibrationConsistency_eq (s : SessionState)
    (sel : List (String × Nat)) (hsel : s.selection = some sel)
    (hne : sel.isEmpty = false) :
    ensureCalibrationConsistency s =
      ({ cams := s.cams.map (fun p => (p.1, (reconcileCam sel p.1 p.2).1))
         selection := some sel },
       (s.cams.map (fun p => (reconcileCam sel p.1 p.2).2)).sum) := by
  unfold ensureCalibrationConsistency
  rw [hsel]
  simp only [hne, Bool.false_eq_true, if_false, List.map_map]
  rfl

/-- Reconciling a camera that is present in the saved selection, twice in a
row, performs no copy the second time. -/
theorem reconcileCam_twice_no_copy (sel : List (String × Nat)) (nm : String)
    (f : CamFiles) (hn : ∃ n, alookup sel nm = some n) :
    (reconcileCam sel nm (reconcileCam sel nm f).1).2 = 0 := by
  obtain ⟨n, hn⟩ := hn
  rcases hs : solnFile n f with _ | src
  · have h1 : reconcileCam sel nm f = (f, 0) := by
      simp only [reconcileCam, hn, hs]
    rw [h1]
    simp only [reconcileCam, hn, hs]
  · rcases ha : f.active with _ | tgt
    · have h1 : reconcileCam sel nm f = ({ f with active := some src }, 1) := by
        simp only [reconcileCam, hn, hs, ha]
      rw [h1]
      simp only [reconcileCam, hn, solnFile_update_active, hs]
      simp
    · by_cases he : src = tgt
      · have h1 : reconcileCam sel nm f = (f, 0) := by
          simp only [reconcileCam, hn, hs, ha]
          simp [he]
        rw [h1]
        simp only [reconcileCam, hn, hs, ha]
        simp [he]
      · have h1 : reconcileCam sel nm f =
            ({ f with active := some src }, 1) := by
          simp only [reconcileCam, hn, hs, ha]
          simp [he]
        rw [h1]
        simp only [reconcileCam, hn, solnFile_update_active, hs]
        simp

/-- C2: after `_apply_calibration_selection` chooses solution `i` for camera
`c` (candidate `i` copied onto the active pickle and the choice persisted
for every camera), a subsequent `_ensure_calibration_consistency` run leaves
camera `c`'s active extrinsics file byte-identical to candidate `i`'s
content `v`; and running the reconciliation twice in a row performs zero
file copies the second time, because equality is decided by content hash
(modelled as content equality), not timestamps. -/
theorem select_then_reconcile_roundtrip (s : SessionState)
    (alternateCams : List String) (c : String) (f : CamFiles) (i : Nat)
    (v : Content) (hnd : (s.cams.map Prod.fst).Nodup)
    (hmem : (c, f) ∈ s.cams) (hi : i = if c ∈ alternateCams then 1 else 0)
    (hv : solnFile i f = some v) :
    alookup (ensureCalibrationConsistency
        (applyCalibrationSelection alternateCams s)).1.cams c =
      some { f with active := some v } ∧
    (ensureCalibrationConsistency
        (ensureCalibrationConsistency
          (applyCalibrationSelection alternateCams s)).1).2 = 0 := by
  -- Names for the selection produced by `_apply_calibration_selection`.
  set sel : List (String × Nat) :=
    s.cams.map (fun p => (p.1, (applySelectionCam alternateCams p.1 p.2).2))
    with hseldef
  have hkeys_sel : sel.map Prod.fst = s.cams.map Prod.fst :=
    keys_map_snd s.cams (fun p => (applySelectionCam alternateCams p.1 p.2).2)
  have hne : sel.isEmpty = false := by
    cases hc : s.cams with
    | nil => rw [hc] at hmem; cases hmem
    | cons a t => simp [hseldef, hc]
  have hs₁cams : (applyCalibrationSelection alternateCams s).cams =
      s.cams.map
        (fun p => (p.1, (applySelectionCam alternateCams p.1 p.2).1)) := rfl
  have hs₁sel : (applyCalibrationSelection alternateCams s).selection =
      some sel := rfl
  have hnd₁ : ((applyCalibrationSelection alternateCams s).cams.map
      Prod.fst).Nodup := by
    rw [hs₁cams,
      keys_map_snd s.cams (fun p => (applySelectionCam alternateCams p.1 p.2).1)]
    exact hnd
  have hmem₁ : (c, (applySelectionCam alternateCams c f).1) ∈
      (applyCalibrationSelection alternateCams s).cams := by
    rw [hs₁cams]
    exact List.mem_map_of_mem
      (fun p => (p.1, (applySelectionCam alternateCams p.1 p.2).1)) hmem
  -- The first reconciliation run.
  have h₁ := ensureCalibrationConsistency_eq
    (applyCalibrationSelection alternateCams s) sel hs₁sel hne
  -- Camera `c`'s files after selection: active set to candidate `i`.
  have hsel_c : (applySelectionCam alternateCams c f).1 =
      { f with active := some v } := by
    simp only [applySelectionCam, ← hi, hv]
  have hselnum_c : (applySelectionCam alternateCams c f).2 = i := by
    simp only [applySelectionCam, ← hi, hv]
  -- The persisted selection maps `c` to `i`.
  have hlook_sel : alookup sel c = some i := by
    rw [hseldef,
      alookup_map_of_mem_nodup
        (fun p => (applySelectionCam alternateCams p.1 p.2).2) hmem hnd]
    exact congrArg some hselnum_c
  -- Camera `c`'s files after the first reconciliation: unchanged, 0 copies.
  have hrec_c : reconcileCam sel c { f with active := some v } =
      ({ f with active := some v }, 0) := by
    simp only [reconcileCam, hlook_sel, solnFile_update_active, hv]
    simp
  have hcams₁ : (ensureCalibrationConsistency
      (applyCalibrationSelection alternateCams s)).1.cams =
      (applyCalibrationSelection alternateCams s).cams.map
        (fun p => (p.1, (reconcileCam sel p.1 p.2).1)) := by rw [h₁]
  constructor
  · rw [hcams₁,
      alookup_map_of_mem_nodup (fun p => (reconcileCam sel p.1 p.2).1)
        hmem₁ hnd₁]
    show some
        ((reconcileCam sel c (applySelectionCam alternateCams c f).1).1) = _
    rw [hsel_c, hrec_c]
  · -- Second run: every camera is in the selection, so zero copies.
    have h₁sel : (ensureCalibrationConsistency
        (applyCalibrationSelection alternateCams s)).1.selection =
        some sel := by rw [h₁]
    have h₂ := ensureCalibrationConsistency_eq
      (ensureCalibrationConsistency
        (applyCalibrationSelection alternateCams s)).1 sel h₁sel hne
    rw [h₂]
    refine List.sum_eq_zero ?_
    intro x hx
    rw [List.mem_map] at hx
    obtain ⟨p, hp, hxp⟩ := hx
    rw [hcams₁, List.mem_map] at hp
    obtain ⟨q, hq, hqp⟩ := hp
    subst hqp
    subst hxp
    refine reconcileCam_twice_no_copy sel q.1 q.2 ?_
    refine alookup_isSome_of_mem_keys ?_
    rw [hkeys_sel, ← keys_map_snd s.cams
      (fun p => (applySelectionCam alternateCams p.1 p.2).1), ← hs₁cams]
    exact List.mem_map_of_mem Prod.fst hq

/-- C2 witness data: a two-camera session with both candidate files present
for `Cam1`. -/
def roundtripSession : SessionState :=
  { cams :=
      [("Cam1", { soln0 := some [1, 1], soln1 := some [2, 2],
                  active := some [9] }),
       ("Cam2", { soln0 := some [3, 3], soln1 := some [4, 4],
                  active := none })]
    selection := none }

/-- C2 witness: selecting solution 0 for `Cam1` (with `Cam2` on the
alternate solution) and reconciling leaves `Cam1`'s active file equal to
candidate 0, and a second reconciliation run performs zero copies. -/
theorem select_then_reconcile_roundtrip_witness :
    alookup (ensureCalibrationConsistency
        (applyCalibrationSelection ["Cam2"] roundtripSession)).1.cams "Cam1" =
      some { soln0 := some [1, 1], soln1 := some [2, 2],
             active := some [1, 1] } ∧
    (ensureCalibrationConsistency
        (ensureCalibrationConsistency
          (applyCalibrationSelection ["Cam2"] roundtripSession)).1).2 = 0 :=
  select_then_reconcile_roundtrip roundtripSession ["Cam2"] "Cam1"
    { soln0 := some [1, 1], soln1 := some [2, 2], active := some [9] }
    0 [1, 1] (by decide) (by decide) (by decide) (by decide)

/-- Characterization of a successful per-camera application in
`apply_calibration_selection_to_session`: the camera is in the mapping, the
index is valid, the candidate file exists, and the camera ends with the
candidate's content as its active file. -/
theorem applyToSessionCam_success (solutionMap : List (String × Int))
    (nm : String) (f : CamFiles)
    (h : (applyToSessionCam solutionMap nm f).2 = true) :
    ∃ n, alookup solutionMap nm = some n ∧ (n = 0 ∨ n = 1) ∧
      ∃ v, solnFile n.toNat f = some v ∧
        (applyToSessionCam solutionMap nm f).1 =
          { f with active := some v } := by
  cases hn : alookup solutionMap nm with
  | none => simp only [applyToSessionCam, hn] at h; cases h
  | some n =>
    by_cases hv01 : n ≠ 0 ∧ n ≠ 1
    · simp only [applyToSessionCam, hn, if_pos hv01] at h
      cases h
    · have hor : n = 0 ∨ n = 1 := by
        rcases not_and_or.mp hv01 with h0 | h1
        · exact Or.inl (not_not.mp h0)
        · exact Or.inr (not_not.mp h1)
      cases hsrc : solnFile n.toNat f with
      | none =>
        simp only [applyToSessionCam, hn, if_neg hv01, hsrc] at h
        cases h
      | some src =>
        refine ⟨n, rfl, hor, src, hsrc, ?_⟩
        cases hact : f.active with
        | none => simp only [applyToSessionCam, hn, if_neg hv01, hsrc, hact]
        | some tgt =>
          by_cases he : src = tgt
          · simp only [applyToSessionCam, hn, if_neg hv01, hsrc, hact,
              if_pos he]
            obtain ⟨s0, s1, a⟩ := f
            simp only at hact
            rw [hact, he]
          · simp only [applyToSessionCam, hn, if_neg hv01, hsrc, hact,
              if_neg he]

/-- First component of `apply_calibration_selection_to_session` for a
non-empty mapping. -/
theorem applyToSession_fst (cams : List (String × CamFiles))
    (solutionMap : List (String × Int))
    (hne : solutionMap.isEmpty = false) :
    (applyCalibrationSelectionToSession cams solutionMap).1 =
      cams.map (fun p => (p.1, (applyToSessionCam solutionMap p.1 p.2).1)) := by
  unfold applyCalibrationSelectionToSession
  simp only [hne, Bool.false_eq_true, if_false, List.map_map]
  rfl

/-- The returned boolean of `apply_calibration_selection_to_session` for a
non-empty mapping: `True` means the success count equals the mapping
size. -/
theorem applyToSession_snd (cams : List (String × CamFiles))
    (solutionMap : List (String × Int))
    (hne : solutionMap.isEmpty = false)
    (htrue : (applyCalibrationSelectionToSession cams solutionMap).2 = true) :
    ((cams.map (fun p => (p.1, applyToSessionCam solutionMap p.1 p.2))).filter
        (fun p => p.2.2)).length = solutionMap.length := by
  unfold applyCalibrationSelectionToSession at htrue
  simp only [hne, Bool.false_eq_true, if_false] at htrue
  exact of_decide_eq_true htrue

/-- C10: in `apply_calibration_selection_to_session`, a camera whose mapped
solution index is neither 0 nor 1 is skipped — its active extrinsics file
is left unchanged and no exception is raised (the run completes normally
and returns its boolean); and the function returns `True` only when every
camera in the supplied mapping was applied (or verified already identical)
successfully: each mapped camera then has a valid index, an existing
candidate file, and ends with that candidate's content as its active
file. -/
theorem apply_selection_to_session_spec (cams : List (String × CamFiles))
    (solutionMap : List (String × Int))
    (hndCams : (cams.map Prod.fst).Nodup)
    (hndMap : (solutionMap.map Prod.fst).Nodup) :
    (∀ c f n, (c, f) ∈ cams → alookup solutionMap c = some n →
      n ≠ 0 → n ≠ 1 →
      alookup (applyCalibrationSelectionToSession cams solutionMap).1 c =
        some f) ∧
    ((applyCalibrationSelectionToSession cams solutionMap).2 = true →
      ∀ c n, (c, n) ∈ solutionMap →
        (n = 0 ∨ n = 1) ∧
        ∃ f v, (c, f) ∈ cams ∧ solnFile n.toNat f = some v ∧
          alookup (applyCalibrationSelectionToSession cams solutionMap).1 c =
            some { f with active := some v }) := by
  constructor
  · intro c f n hmemc hlook hn0 hn1
    have hkey := mem_keys_of_alookup_eq_some hlook
    have hnemp : solutionMap.isEmpty = false := by
      cases solutionMap with
      | nil => simp at hkey
      | cons a t => rfl
    rw [applyToSession_fst cams solutionMap hnemp,
      alookup_map_of_mem_nodup
        (fun p => (applyToSessionCam solutionMap p.1 p.2).1) hmemc hndCams]
    show some ((applyToSessionCam solutionMap c f).1) = some f
    simp only [applyToSessionCam, hlook]
    rw [if_pos ⟨hn0, hn1⟩]
  · intro htrue c n hmemMap
    have hkey : c ∈ solutionMap.map Prod.fst :=
      List.mem_map_of_mem Prod.fst hmemMap
    have hnemp : solutionMap.isEmpty = false := by
      cases solutionMap with
      | nil => simp at hkey
      | cons a t => rfl
    have hlen := applyToSession_snd cams solutionMap hnemp htrue
    set results :=
      cams.map (fun p => (p.1, applyToSessionCam solutionMap p.1 p.2))
      with hres
    set flagged := results.filter (fun p => p.2.2) with hflag
    -- Every flagged camera's name is a key of the mapping.
    have hsub : flagged.map Prod.fst ⊆ solutionMap.map Prod.fst := by
      intro x hx
      rw [List.mem_map] at hx
      obtain ⟨p, hp, hpx⟩ := hx
      rw [hflag, List.mem_filter] at hp
      obtain ⟨hpres, hpflag⟩ := hp
      rw [hres, List.mem_map] at hpres
      obtain ⟨q, hq, hqp⟩ := hpres
      subst hqp
      obtain ⟨m, hm, -⟩ :=
        applyToSessionCam_success solutionMap q.1 q.2 hpflag
      subst hpx
      exact mem_keys_of_alookup_eq_some hm
    -- Flagged names are pairwise distinct.
    have hfnodup : (flagged.map Prod.fst).Nodup := by
      have hsubl : List.Sublist (flagged.map Prod.fst)
          (results.map Prod.fst) :=
        (List.filter_sublist results).map Prod.fst
      refine List.Nodup.sublist hsubl ?_
      rw [hres,
        keys_map_snd cams (fun p => applyToSessionCam solutionMap p.1 p.2)]
      exact hndCams
    -- The requested camera is among the flagged ones.
    have hcmem : c ∈ flagged.map Prod.fst := by
      by_contra hcnot
      have hsub2 : flagged.map Prod.fst ⊆ (solutionMap.map Prod.fst).erase c := by
        intro x hx
        have hxk := hsub hx
        have hxc : x ≠ c := fun he => hcnot (he ▸ hx)
        exact (List.mem_erase_of_ne hxc).mpr hxk
      have hle : (flagged.map Prod.fst).length ≤
          ((solutionMap.map Prod.fst).erase c).length :=
        (List.subperm_of_subset hfnodup hsub2).length_le
      have herase : ((solutionMap.map Prod.fst).erase c).length + 1 =
          (solutionMap.map Prod.fst).length :=
        List.length_erase_add_one hkey
      rw [List.length_map] at hle herase
      omega
    -- Extract the successful camera named `c`.
    rw [List.mem_map] at hcmem
    obtain ⟨p, hpFlagged, hpc⟩ := hcmem
    rw [hflag, List.mem_filter] at hpFlagged
    obtain ⟨hpres, hpflag⟩ := hpFlagged
    rw [hres, List.mem_map] at hpres
    obtain ⟨q, hq, hqp⟩ := hpres
    subst hqp
    have hq1 : q.1 = c := hpc
    obtain ⟨m, hm, hm01, v, hsrc, hres1⟩ :=
      applyToSessionCam_success solutionMap q.1 q.2 hpflag
    rw [hq1] at hm hres1
    have hcanon : alookup solutionMap c = some n :=
      alookup_eq_of_mem_nodup hmemMap hndMap
    have hmn : m = n := Option.some.inj (hm.symm.trans hcanon)
    subst hmn
    have hqmem : (c, q.2) ∈ cams := by
      rw [← hq1]
      exact hq
    refine ⟨hm01, q.2, v, hqmem, hsrc, ?_⟩
    rw [applyToSession_fst cams solutionMap hnemp,
      alookup_map_of_mem_nodup
        (fun p => (applyToSessionCam solutionMap p.1 p.2).1) hqmem hndCams]
    exact congrArg some hres1

/-- C10 witness data: two camera directories with all candidate files
present. -/
def sessionCams : List (String × CamFiles) :=
  [("Cam1", { soln0 := some [1, 1], soln1 := some [2, 2],
              active := some [9] }),
   ("Cam2", { soln0 := some [3, 3], soln1 := some [4, 4],
              active := some [3, 3] })]

/-- C10 witness: a mapping sending `Cam1` to the invalid index 2 leaves
`Cam1`'s active extrinsics file unchanged. -/
theorem apply_selection_to_session_spec_witness :
    alookup (applyCalibrationSelectionToSession sessionCams
        [("Cam1", 2)]).1 "Cam1" =
      some { soln0 := some [1, 1], soln1 := some [2, 2],
             active := some [9] } :=
  (apply_selection_to_session_spec sessionCams [("Cam1", 2)] (by decide)
      (by decide)).1 "Cam1"
    { soln0 := some [1, 1], soln1 := some [2, 2], active := some [9] } 2
    (by decide) (by decide) (by decide) (by decide)



end OpenCapLocal
